import Mathlib

/-!
# Demo parameter catalog and text-to-texture interface

A shallow embedding of

* `Sources/Model/NBody/Simulation/Core/Demo/NBodySimulationDemo.h`
  (the static table `kParams` and `kParamsCount`), and
* `Sources/Model/OpenGL/Utilities/Text/GLUText.h` (the interface of `GLU::Text`).

Float literals are read as exact rationals. Machine integers are `Int` / `Nat`.
-/

namespace NBody
namespace Simulation

/-- Modelled from the spec: the record type `Params` is declared in
`NBodySimulationTypes.h`, which is missing. The fields follow the column comment of the
table (time step, cluster scale, velocity scale, softening, damping, point size scale,
x-rotation, y-rotation, view distance, configuration). The enumeration type of the
configuration tag is missing as well and is the type parameter `C`. -/
structure Params (C : Type) where
  mnTimeStep : ℚ
  mnClusterScale : ℚ
  mnVelocityScale : ℚ
  mnSoftening : ℚ
  mnDamping : ℚ
  mnPointSize : ℚ
  mnRotateX : ℚ
  mnRotateY : ℚ
  mnViewDistance : ℚ
  mnConfig : C

namespace Demo

/-- The table `kParams` of `NBodySimulationDemo.h`, record by record and field by field.
The constants `Scale::kTime` and `Scale::kSoftening` and the two enumerators
`eConfigMWM31` and `eConfigShell` are declared in the missing `NBodySimulationTypes.h`
and are parameters here. -/
def kParams {C : Type} (kTime kSoftening : ℚ) (eConfigMWM31 eConfigShell : C) :
    List (Params C) :=
  [ { mnTimeStep := kTime * 0.25, mnClusterScale := 1.0, mnVelocityScale := 1.0,
      mnSoftening := 0.025, mnDamping := 1.0,
      mnPointSize := 0.7, mnRotateX := 66.0, mnRotateY := 137.0,
      mnViewDistance := 30.0, mnConfig := eConfigMWM31 },
    { mnTimeStep := kTime * 0.016, mnClusterScale := 1.54, mnVelocityScale := 8.0,
      mnSoftening := kSoftening * 0.1, mnDamping := 1.0,
      mnPointSize := 1.0, mnRotateX := 0.0, mnRotateY := 0.0,
      mnViewDistance := 30.0, mnConfig := eConfigShell },
    { mnTimeStep := kTime * 0.0019, mnClusterScale := 0.32, mnVelocityScale := 276.0,
      mnSoftening := kSoftening * 1.0, mnDamping := 1.0,
      mnPointSize := 0.18, mnRotateX := 90.0, mnRotateY := 0.0,
      mnViewDistance := 9.0, mnConfig := eConfigShell },
    { mnTimeStep := kTime * 0.016, mnClusterScale := 0.68, mnVelocityScale := 20.0,
      mnSoftening := kSoftening * 0.1, mnDamping := 1.0,
      mnPointSize := 1.2, mnRotateX := 39.0, mnRotateY := 2.0,
      mnViewDistance := 50.0, mnConfig := eConfigShell },
    { mnTimeStep := kTime * 0.0006, mnClusterScale := 0.16, mnVelocityScale := 1000.0,
      mnSoftening := kSoftening * 1.0, mnDamping := 1.0,
      mnPointSize := 0.15, mnRotateX := -83.0, mnRotateY := 10.0,
      mnViewDistance := 5.0, mnConfig := eConfigShell },
    { mnTimeStep := kTime * 0.0016, mnClusterScale := 0.32, mnVelocityScale := 272.0,
      mnSoftening := kSoftening * 0.145, mnDamping := 1.0,
      mnPointSize := 0.1, mnRotateX := 0.0, mnRotateY := 0.0,
      mnViewDistance := 4.15, mnConfig := eConfigShell },
    { mnTimeStep := kTime * 0.016, mnClusterScale := 6.04, mnVelocityScale := 0.0,
      mnSoftening := kSoftening * 1.0, mnDamping := 1.0,
      mnPointSize := 1.0, mnRotateX := 0.0, mnRotateY := 0.0,
      mnViewDistance := 50.0, mnConfig := eConfigShell } ]

/-- The value of `sizeof(kParams)`: an array of `n` elements occupies `n` times the size
of one element. `sizeofParams` is `sizeof(Params)`, a parameter because the declaration
of `Params` is missing. -/
def sizeofkParams {C : Type} (sizeofParams : Nat) (kTime kSoftening : ℚ)
    (eConfigMWM31 eConfigShell : C) : Nat :=
  (kParams kTime kSoftening eConfigMWM31 eConfigShell).length * sizeofParams

/-- The constant `kParamsCount = sizeof(kParams) / sizeof(Params)`, converted to the
signed `GLint`. -/
def kParamsCount {C : Type} (sizeofParams : Nat) (kTime kSoftening : ℚ)
    (eConfigMWM31 eConfigShell : C) : Int :=
  Int.ofNat (sizeofkParams sizeofParams kTime kSoftening eConfigMWM31 eConfigShell
    / sizeofParams)

/-- Indexed read `kParams[i]` as a total lookup: the record at position `i` when `i` is a
position of the array, and nothing otherwise. -/
def kParamsAt {C : Type} (kTime kSoftening : ℚ) (eConfigMWM31 eConfigShell : C)
    (i : Int) : Option (Params C) :=
  if i < 0 then none
  else (kParams kTime kSoftening eConfigMWM31 eConfigShell).get? i.toNat

/-- The coefficients multiplying `Scale::kTime` in the first column of the table. -/
def kTimeStepCoefficients : List ℚ :=
  [0.25, 0.016, 0.0019, 0.016, 0.0006, 0.0016, 0.016]

end Demo
end Simulation
end NBody

/-! ## `GLU::Text` -/

/-- Pixel or point coordinates of CoreGraphics (`CGPoint`). -/
structure CGPoint where
  x : ℚ
  y : ℚ
deriving DecidableEq

/-- A CoreGraphics size (`CGSize`). -/
structure CGSize where
  width : ℚ
  height : ℚ
deriving DecidableEq

/-- A CoreGraphics rectangle (`CGRect`). -/
structure CGRect where
  origin : CGPoint
  size : CGSize
deriving DecidableEq

/-- A CoreFoundation range (`CFRange`). -/
structure CFRange where
  location : Int
  length : Int
deriving DecidableEq

/-- The CoreText paragraph alignments (`CTTextAlignment`). -/
inductive CTTextAlignment
  | kCTTextAlignmentLeft
  | kCTTextAlignmentRight
  | kCTTextAlignmentCenter
  | kCTTextAlignmentJustified
  | kCTTextAlignmentNatural
deriving DecidableEq

/-- A bitmap context (the referent of a non-null `CGContextRef`) with its pixel size. -/
structure CGContext where
  size : CGSize
deriving DecidableEq

namespace GLU

/-- The parameter types occurring in the member declarations of `GLU::Text`, and the two
reference types `const Text&` and `Text&&` by which a copy or move member is
recognised. -/
inductive ParamType
  | GLstring
  | GLfloat
  | CGFloat
  | bool
  | CGPoint
  | GLsizei
  | CTTextAlignment
  | CGSize
  | CGContextRef
  | constTextRef
  | textRvalueRef
deriving DecidableEq

/-- One declared parameter: its type, its name, and whether it has a default value. -/
structure Param where
  ty : ParamType
  name : String
  hasDefault : Bool
deriving DecidableEq

/-- The constructor declarations written in the public section of `GLU::Text`, in the
order of `GLUText.h`. -/
def constructors : List (List Param) :=
  [ [ ⟨.GLstring, "rText", false⟩, ⟨.GLstring, "rFont", false⟩,
      ⟨.GLfloat, "nFontSize", false⟩, ⟨.CGPoint, "rOrigin", false⟩,
      ⟨.CTTextAlignment, "nTextAlign", true⟩ ],
    [ ⟨.GLstring, "rText", false⟩, ⟨.GLstring, "rFont", false⟩,
      ⟨.GLfloat, "nFontSize", false⟩, ⟨.GLsizei, "nWidth", false⟩,
      ⟨.GLsizei, "nHeight", false⟩, ⟨.CTTextAlignment, "nTextAlign", true⟩ ],
    [ ⟨.GLstring, "rText", false⟩, ⟨.CGFloat, "nFontSize", false⟩,
      ⟨.bool, "bIsItalic", false⟩, ⟨.CGPoint, "rOrigin", false⟩,
      ⟨.CTTextAlignment, "nTextAlign", true⟩ ],
    [ ⟨.GLstring, "rText", false⟩, ⟨.CGFloat, "nFontSize", false⟩,
      ⟨.bool, "bIsItalic", false⟩, ⟨.GLsizei, "nWidth", false⟩,
      ⟨.GLsizei, "nHeight", false⟩, ⟨.CTTextAlignment, "nTextAlign", true⟩ ] ]

/-- How a constructor obtains the bounds. -/
inductive BoundsMode
  | autoSized
  | explicitSize
deriving DecidableEq

/-- How a constructor obtains the font. -/
inductive FontMode
  | named
  | builtinBold
deriving DecidableEq

/-- Whether a declaration has a parameter of the given type and name. -/
def hasParam (sig : List Param) (ty : ParamType) (name : String) : Bool :=
  sig.any (fun p => decide (p.ty = ty) && decide (p.name = name))

/-- The bounds mode a declaration offers: an origin argument and no width or height
means auto-sized bounds, width and height arguments and no origin mean explicit bounds. -/
def boundsMode (sig : List Param) : Option BoundsMode :=
  match hasParam sig .CGPoint "rOrigin",
        hasParam sig .GLsizei "nWidth" && hasParam sig .GLsizei "nHeight",
        hasParam sig .GLsizei "nWidth" || hasParam sig .GLsizei "nHeight" with
  | true, _, false => some .autoSized
  | false, true, _ => some .explicitSize
  | _, _, _ => none

/-- The font mode a declaration offers: a font-name argument and no italic flag means a
named font, an italic flag and no font name means the built-in bold font. -/
def fontMode (sig : List Param) : Option FontMode :=
  match hasParam sig .GLstring "rFont", hasParam sig .bool "bIsItalic" with
  | true, false => some .named
  | false, true => some .builtinBold
  | _, _ => none

/-- The number of declared constructors offering a given combination. -/
def offeredBy (b : BoundsMode) (f : FontMode) : Nat :=
  (constructors.filter
    (fun sig => decide (boundsMode sig = some b) && decide (fontMode sig = some f))).length

/-- One declared member function: its name, whether it is public, whether it is
`const`, and the types of its parameters. -/
structure Method where
  name : String
  isPublic : Bool
  isConst : Bool
  paramTypes : List ParamType
deriving DecidableEq

/-- The member functions declared in `GLU::Text` besides the constructors and the
destructor, in the order of `GLUText.h`: three public `const` accessors and five private
overloads of `create`. -/
def methods : List Method :=
  [ ⟨"texture", true, true, []⟩,
    ⟨"bounds", true, true, []⟩,
    ⟨"range", true, true, []⟩,
    ⟨"create", false, false, [.GLsizei, .GLsizei]⟩,
    ⟨"create", false, false, [.CGSize]⟩,
    ⟨"create", false, false, [.CGContextRef]⟩,
    ⟨"create", false, false, [.GLstring, .GLstring, .GLfloat, .CGPoint, .CTTextAlignment]⟩,
    ⟨"create", false, false,
      [.GLstring, .GLstring, .GLfloat, .GLsizei, .GLsizei, .CTTextAlignment]⟩ ]

/-- Whether a constructor declaration can be called with one argument of the given
reference type: its first parameter has that type and the others have defaults. -/
def takesOnly (ty : ParamType) (sig : List Param) : Bool :=
  match sig with
  | [] => false
  | p :: rest => decide (p.ty = ty) && rest.all (fun q => q.hasDefault)

/-- Whether the class declares a copy constructor. -/
def declaresCopyConstructor : Bool :=
  constructors.any (takesOnly .constTextRef)

/-- Whether the class declares a move constructor or a move assignment operator. -/
def declaresMove : Bool :=
  constructors.any (takesOnly .textRvalueRef) ||
  methods.any (fun m => decide (m.name = "operator=") && decide (m.paramTypes = [.textRvalueRef]))

/-- The signature `Text(const Text&)` of a copy constructor. -/
def copyConstructor : List Param :=
  [ ⟨.constTextRef, "", false⟩ ]

/-- The constructors the language declares implicitly: a class that declares no copy
constructor gets a public one, usable unless the class declares a move member. -/
def implicitConstructors : List (List Param) :=
  if declaresCopyConstructor || declaresMove then [] else [copyConstructor]

/-- All public constructors of `GLU::Text`: the declared ones and the implicit one. -/
def publicConstructors : List (List Param) :=
  constructors ++ implicitConstructors

/-- Modelled from the spec: the platform collaborators of `GLU::Text` (CoreText layout,
CoreGraphics bitmap contexts, OpenGL texture objects), whose use is in the missing
implementation file of `GLUText.h`. Each field is the answer of the platform to one
request; a failure at the platform level is `none`. -/
structure Platform where
  /-- CoreText layout of a string in a font of a size at an origin, with bounds derived
  from the text: the bounds and the covered range. -/
  frameAtOrigin : String → String → ℚ → CGPoint → CTTextAlignment → Option (CGRect × CFRange)
  /-- CoreText layout of a string in a font of a size into a given width and height: the
  covered range. -/
  frameInSize : String → String → ℚ → Int → Int → CTTextAlignment → Option CFRange
  /-- CoreGraphics bitmap context of a given size. -/
  bitmapContext : CGSize → Option CGContext
  /-- OpenGL texture allocated and uploaded from a drawn context: its name. -/
  genTexture : CGContext → Option Nat

/-- The private data members of `GLU::Text`. -/
structure Text where
  mnTexture : Nat
  m_Bounds : CGRect
  m_Range : CFRange
deriving DecidableEq

namespace Text

/-- Modelled from the spec: body of the private `create(const CGSize& rSize)`, missing
with the implementation file; the declaration returns a `CGContextRef`, null being
`none`. -/
def createContextOfSize (P : Platform) (rSize : CGSize) : Option CGContext :=
  P.bitmapContext rSize

/-- Modelled from the spec: body of the private
`create(const GLsizei& nWidth, const GLsizei& nHeight)`, missing with the implementation
file. -/
def createContext (P : Platform) (nWidth nHeight : Int) : Option CGContext :=
  createContextOfSize P ⟨(nWidth : ℚ), (nHeight : ℚ)⟩

/-- Modelled from the spec: body of the private `create(CGContextRef pContext)`, missing
with the implementation file; the declaration returns the `GLuint` texture name, which
stays 0 when there is no context or the platform allocates no texture. -/
def createTexture (P : Platform) (pContext : Option CGContext) : Nat :=
  match pContext with
  | none => 0
  | some c => (P.genTexture c).getD 0

/-- Modelled from the spec: body of the private `create` taking an origin, missing with
the implementation file: "produce a GPU texture containing the rasterized glyphs, plus
the pixel bounds actually used and the covered character range", with the bounds derived
from the text size. When the layout fails no texture is made. -/
def createAtOrigin (P : Platform) (rText rFont : String) (nFontSize : ℚ)
    (rOrigin : CGPoint) (nTextAlign : CTTextAlignment) : Text :=
  match P.frameAtOrigin rText rFont nFontSize rOrigin nTextAlign with
  | none => { mnTexture := 0, m_Bounds := ⟨⟨0, 0⟩, ⟨0, 0⟩⟩, m_Range := ⟨0, 0⟩ }
  | some (bounds, range) =>
    { mnTexture := createTexture P (createContextOfSize P bounds.size),
      m_Bounds := bounds, m_Range := range }

/-- Modelled from the spec: body of the private `create` taking a width and a height,
missing with the implementation file: the bounds are the requested dimensions
("constructing with explicit width/height yields bounds equal to the requested
dimensions"). When the layout fails no texture is made. -/
def createInSize (P : Platform) (rText rFont : String) (nFontSize : ℚ)
    (nWidth nHeight : Int) (nTextAlign : CTTextAlignment) : Text :=
  match P.frameInSize rText rFont nFontSize nWidth nHeight nTextAlign with
  | none =>
    { mnTexture := 0, m_Bounds := ⟨⟨0, 0⟩, ⟨(nWidth : ℚ), (nHeight : ℚ)⟩⟩, m_Range := ⟨0, 0⟩ }
  | some range =>
    { mnTexture := createTexture P (createContext P nWidth nHeight),
      m_Bounds := ⟨⟨0, 0⟩, ⟨(nWidth : ℚ), (nHeight : ℚ)⟩⟩, m_Range := range }

/-- Modelled from the spec: the font of the two constructors with an italic flag, "a
fixed italic/bold variant"; the header comment says "helvetica bold or helvetica bold
oblique". The font names themselves are in the missing implementation file, and the
two strings stand for them. -/
def boldFont (bIsItalic : Bool) : String :=
  if bIsItalic then "Helvetica-BoldOblique" else "Helvetica-Bold"

/-- The arguments of one construction, one alternative per declared constructor, in the
order of `GLUText.h`. -/
inductive Args
  | namedAtOrigin (rText rFont : String) (nFontSize : ℚ) (rOrigin : CGPoint)
      (nTextAlign : CTTextAlignment)
  | namedInSize (rText rFont : String) (nFontSize : ℚ) (nWidth nHeight : Int)
      (nTextAlign : CTTextAlignment)
  | boldAtOrigin (rText : String) (nFontSize : ℚ) (bIsItalic : Bool) (rOrigin : CGPoint)
      (nTextAlign : CTTextAlignment)
  | boldInSize (rText : String) (nFontSize : ℚ) (bIsItalic : Bool) (nWidth nHeight : Int)
      (nTextAlign : CTTextAlignment)

/-- Modelled from the spec: the four declared constructors, whose bodies are missing with
the implementation file; each stores the texture name made by the matching private
`create`. -/
def construct (P : Platform) : Args → Text
  | .namedAtOrigin rText rFont nFontSize rOrigin nTextAlign =>
    createAtOrigin P rText rFont nFontSize rOrigin nTextAlign
  | .namedInSize rText rFont nFontSize nWidth nHeight nTextAlign =>
    createInSize P rText rFont nFontSize nWidth nHeight nTextAlign
  | .boldAtOrigin rText nFontSize bIsItalic rOrigin nTextAlign =>
    createAtOrigin P rText (boldFont bIsItalic) nFontSize rOrigin nTextAlign
  | .boldInSize rText nFontSize bIsItalic nWidth nHeight nTextAlign =>
    createInSize P rText (boldFont bIsItalic) nFontSize nWidth nHeight nTextAlign

/-- The text argument of a construction. -/
def Args.rText : Args → String
  | .namedAtOrigin rText _ _ _ _ => rText
  | .namedInSize rText _ _ _ _ _ => rText
  | .boldAtOrigin rText _ _ _ _ => rText
  | .boldInSize rText _ _ _ _ _ => rText

/-- The font size argument of a construction. -/
def Args.nFontSize : Args → ℚ
  | .namedAtOrigin _ _ nFontSize _ _ => nFontSize
  | .namedInSize _ _ nFontSize _ _ _ => nFontSize
  | .boldAtOrigin _ nFontSize _ _ _ => nFontSize
  | .boldInSize _ nFontSize _ _ _ _ => nFontSize

/-- The accessor `bounds() const`. -/
def bounds (t : Text) : CGRect := t.m_Bounds

/-- The accessor `range() const`. -/
def range (t : Text) : CFRange := t.m_Range

end Text

end GLU

open NBody.Simulation NBody.Simulation.Demo
open GLU

/-- C1: the table `kParams` has exactly 7 records, and `kParamsCount`, computed as
`sizeof(kParams) / sizeof(Params)`, is 7 for every positive element size. -/
theorem kParamsCount_eq_seven {C : Type} (sizeofParams : Nat) (kTime kSoftening : ℚ)
    (eConfigMWM31 eConfigShell : C) (hsize : 0 < sizeofParams) :
    (kParams kTime kSoftening eConfigMWM31 eConfigShell).length = 7 ∧
    kParamsCount sizeofParams kTime kSoftening eConfigMWM31 eConfigShell = 7 := by
  refine ⟨rfl, ?_⟩
  unfold kParamsCount sizeofkParams
  rw [Nat.mul_div_cancel _ hsize]
  rfl

/-- Instance of C1 at an element size of 40 bytes. -/
theorem kParamsCount_eq_seven_witness :
    0 < 40 ∧
    ((kParams (2 / 5) 1 true false).length = 7 ∧
      kParamsCount 40 (2 / 5) 1 true false = 7) :=
  ⟨by decide, kParamsCount_eq_seven 40 (2 / 5) 1 true false (by decide)⟩

/-- C2: with `Scale::kTime` non-negative, every record of `kParams` has a non-negative
time step, cluster scale, velocity scale, point-size scale and view distance (all values
are rationals, hence finite). -/
theorem kParams_fields_nonneg {C : Type} (kTime kSoftening : ℚ)
    (eConfigMWM31 eConfigShell : C) (hTime : 0 ≤ kTime) :
    ∀ r ∈ kParams kTime kSoftening eConfigMWM31 eConfigShell,
      0 ≤ r.mnTimeStep ∧ 0 ≤ r.mnClusterScale ∧ 0 ≤ r.mnVelocityScale ∧
      0 ≤ r.mnPointSize ∧ 0 ≤ r.mnViewDistance := by
  intro r hr
  simp only [kParams, List.mem_cons, List.mem_singleton, List.not_mem_nil, or_false] at hr
  rcases hr with h | h | h | h | h | h | h <;> subst h <;>
    refine ⟨mul_nonneg hTime (by norm_num), ?_, ?_, ?_, ?_⟩ <;> norm_num

/-- Instance of C2 at a time scale of two fifths. -/
theorem kParams_fields_nonneg_witness :
    (0 : ℚ) ≤ 2 / 5 ∧
    ∀ r ∈ kParams (2 / 5) 1 true false,
      0 ≤ r.mnTimeStep ∧ 0 ≤ r.mnClusterScale ∧ 0 ≤ r.mnVelocityScale ∧
      0 ≤ r.mnPointSize ∧ 0 ≤ r.mnViewDistance :=
  ⟨by norm_num, kParams_fields_nonneg (2 / 5) 1 true false (by norm_num)⟩

/-- C3: every configuration tag of `kParams` is one of the two enumerators written in the
table, `eConfigMWM31` or `eConfigShell`, whatever the enumeration type is. -/
theorem kParams_config_enumerated {C : Type} (kTime kSoftening : ℚ)
    (eConfigMWM31 eConfigShell : C) :
    ∀ r ∈ kParams kTime kSoftening eConfigMWM31 eConfigShell,
      r.mnConfig = eConfigMWM31 ∨ r.mnConfig = eConfigShell := by
  intro r hr
  simp only [kParams, List.mem_cons, List.mem_singleton, List.not_mem_nil, or_false] at hr
  rcases hr with h | h | h | h | h | h | h <;> subst h <;> simp

/-- Instance of C3 at the first record of the table, with the enumerators numbered 3
and 1. -/
theorem kParams_config_enumerated_witness :
    (⟨2 / 5 * 0.25, 1.0, 1.0, 0.025, 1.0, 0.7, 66.0, 137.0, 30.0, 3⟩ : Params Nat)
        ∈ kParams (2 / 5) 1 3 1 ∧
    ((⟨2 / 5 * 0.25, 1.0, 1.0, 0.025, 1.0, 0.7, 66.0, 137.0, 30.0, 3⟩ : Params Nat).mnConfig = 3 ∨
      (⟨2 / 5 * 0.25, 1.0, 1.0, 0.025, 1.0, 0.7, 66.0, 137.0, 30.0, 3⟩ : Params Nat).mnConfig
        = 1) :=
  ⟨List.mem_cons_self _ _,
    kParams_config_enumerated (2 / 5) 1 3 1 _ (List.mem_cons_self _ _)⟩

/-- C4: reading `kParams[i]` yields a record exactly for the indices
`0 <= i < kParamsCount`; for `i < 0` and for `i >= kParamsCount` there is no record. -/
theorem kParamsAt_isSome_iff {C : Type} (sizeofParams : Nat) (kTime kSoftening : ℚ)
    (eConfigMWM31 eConfigShell : C) (hsize : 0 < sizeofParams) (i : Int) :
    ((0 ≤ i ∧ i < kParamsCount sizeofParams kTime kSoftening eConfigMWM31 eConfigShell) →
      ∃ r, kParamsAt kTime kSoftening eConfigMWM31 eConfigShell i = some r) ∧
    ((i < 0 ∨ kParamsCount sizeofParams kTime kSoftening eConfigMWM31 eConfigShell ≤ i) →
      kParamsAt kTime kSoftening eConfigMWM31 eConfigShell i = none) := by
  have hcount : kParamsCount sizeofParams kTime kSoftening eConfigMWM31 eConfigShell = 7 := by
    unfold kParamsCount sizeofkParams
    rw [Nat.mul_div_cancel _ hsize]
    rfl
  have hlen : (kParams kTime kSoftening eConfigMWM31 eConfigShell).length = 7 := rfl
  rw [hcount]
  constructor
  · rintro ⟨h0, h7⟩
    have hlt : i.toNat < (kParams kTime kSoftening eConfigMWM31 eConfigShell).length := by
      rw [hlen]; omega
    refine ⟨(kParams kTime kSoftening eConfigMWM31 eConfigShell).get ⟨i.toNat, hlt⟩, ?_⟩
    unfold kParamsAt
    rw [if_neg (by omega)]
    exact List.get?_eq_get hlt
  · intro h
    unfold kParamsAt
    by_cases hneg : i < 0
    · rw [if_pos hneg]
    · rw [if_neg hneg]
      apply List.get?_eq_none.mpr
      rw [hlen]; omega

/-- Instance of C4 at the last index, 6. -/
theorem kParamsAt_isSome_iff_witness :
    0 < 40 ∧
    (((0 : Int) ≤ 6 ∧ 6 < kParamsCount 40 (2 / 5) 1 true false →
      ∃ r, kParamsAt (2 / 5) 1 true false 6 = some r) ∧
    (((6 : Int) < 0 ∨ kParamsCount 40 (2 / 5) 1 true false ≤ 6) →
      kParamsAt (2 / 5) 1 true false 6 = none)) :=
  ⟨by decide, kParamsAt_isSome_iff 40 (2 / 5) 1 true false (by decide) 6⟩

/-- C9: in every record of `kParams` the cluster scale, the point-size scale and the view
distance are strictly positive; the time steps are `Scale::kTime` times the coefficients
of `kTimeStepCoefficients`, which are all strictly positive; the velocity scale is
strictly positive at the indices 0 to 5 and exactly 0 at index 6, so it is not strictly
positive for every record. -/
theorem kParams_positive_fields {C : Type} (kTime kSoftening : ℚ)
    (eConfigMWM31 eConfigShell : C) :
    (∀ r ∈ kParams kTime kSoftening eConfigMWM31 eConfigShell,
      0 < r.mnClusterScale ∧ 0 < r.mnPointSize ∧ 0 < r.mnViewDistance) ∧
    ((kParams kTime kSoftening eConfigMWM31 eConfigShell).map (fun r => r.mnTimeStep)
      = kTimeStepCoefficients.map (fun c => kTime * c)) ∧
    (∀ c ∈ kTimeStepCoefficients, 0 < c) ∧
    (∀ (i : Nat) (r : Params C),
      (kParams kTime kSoftening eConfigMWM31 eConfigShell).get? i = some r →
        (i < 6 → 0 < r.mnVelocityScale) ∧ (i = 6 → r.mnVelocityScale = 0)) ∧
    ¬ (∀ r ∈ kParams kTime kSoftening eConfigMWM31 eConfigShell, 0 < r.mnVelocityScale) := by
  refine ⟨?_, rfl, ?_, ?_, ?_⟩
  · intro r hr
    simp only [kParams, List.mem_cons, List.mem_singleton, List.not_mem_nil, or_false] at hr
    rcases hr with h | h | h | h | h | h | h <;> subst h <;> norm_num
  · intro c hc
    simp only [kTimeStepCoefficients, List.mem_cons, List.mem_singleton, List.not_mem_nil,
      or_false] at hc
    rcases hc with h | h | h | h | h | h | h <;> subst h <;> norm_num
  · intro i r h
    have hi : i < 7 := (List.get?_eq_some.mp h).1
    interval_cases i <;> simp [kParams] at h <;> subst h <;> norm_num
  · intro hall
    have h6 := hall _ (List.getLast_mem
      (l := kParams kTime kSoftening eConfigMWM31 eConfigShell) (by simp [kParams]))
    simp only [kParams, List.getLast_cons_cons, List.getLast_singleton] at h6
    norm_num at h6

/-- C10: every record of `kParams` has velocity damping exactly 1; the configuration tag
is `eConfigMWM31` at index 0 and `eConfigShell` at each index 1 to 6. -/
theorem kParams_damping_and_config {C : Type} (kTime kSoftening : ℚ)
    (eConfigMWM31 eConfigShell : C) :
    (∀ r ∈ kParams kTime kSoftening eConfigMWM31 eConfigShell, r.mnDamping = 1) ∧
    (∀ (i : Nat) (r : Params C),
      (kParams kTime kSoftening eConfigMWM31 eConfigShell).get? i = some r →
        (i = 0 → r.mnConfig = eConfigMWM31) ∧
        (1 ≤ i → i ≤ 6 → r.mnConfig = eConfigShell)) ∧
    (∀ i : Nat, i ≤ 6 →
      ∃ r, (kParams kTime kSoftening eConfigMWM31 eConfigShell).get? i = some r) := by
  refine ⟨?_, ?_, ?_⟩
  · intro r hr
    simp only [kParams, List.mem_cons, List.mem_singleton, List.not_mem_nil, or_false] at hr
    rcases hr with h | h | h | h | h | h | h <;> subst h <;> norm_num
  · intro i r h
    have hi : i < 7 := (List.get?_eq_some.mp h).1
    interval_cases i <;> simp [kParams] at h <;> subst h <;> simp
  · intro i hi
    interval_cases i <;> exact ⟨_, rfl⟩

/-! ### Helper lemmas on the model of `GLU::Text` -/

lemma GLU.Text.bounds_createInSize (P : Platform) (rText rFont : String) (nFontSize : ℚ)
    (nWidth nHeight : Int) (nTextAlign : CTTextAlignment) :
    (Text.createInSize P rText rFont nFontSize nWidth nHeight nTextAlign).bounds.size
      = ⟨(nWidth : ℚ), (nHeight : ℚ)⟩ := by
  simp only [Text.createInSize, Text.bounds]
  split <;> rfl

/-- C5: for every text, font (named, or the built-in bold or bold-oblique one), font size
and alignment, on every platform, a `GLU::Text` constructed with an explicit width
`nWidth` and height `nHeight` has a `bounds()` rectangle of width `nWidth` and height
`nHeight`. -/
theorem bounds_eq_requested_dimensions (P : Platform) (rText rFont : String)
    (nFontSize : ℚ) (bIsItalic : Bool) (nWidth nHeight : Int)
    (nTextAlign : CTTextAlignment) :
    ((Text.construct P
        (.namedInSize rText rFont nFontSize nWidth nHeight nTextAlign)).bounds.size.width
        = (nWidth : ℚ) ∧
      (Text.construct P
        (.namedInSize rText rFont nFontSize nWidth nHeight nTextAlign)).bounds.size.height
        = (nHeight : ℚ)) ∧
    ((Text.construct P
        (.boldInSize rText nFontSize bIsItalic nWidth nHeight nTextAlign)).bounds.size.width
        = (nWidth : ℚ) ∧
      (Text.construct P
        (.boldInSize rText nFontSize bIsItalic nWidth nHeight nTextAlign)).bounds.size.height
        = (nHeight : ℚ)) := by
  simp only [Text.construct]
  rw [Text.bounds_createInSize, Text.bounds_createInSize]
  exact ⟨⟨rfl, rfl⟩, ⟨rfl, rfl⟩⟩

/-- C8, refuted as stated: the header declares no copy constructor and no move member,
so the class has a fifth public constructor, the implicit `Text(const Text&)`, which
offers neither a bounds mode nor a font mode. -/
theorem implicit_copy_constructor_counterexample :
    publicConstructors.length = 5 ∧
    copyConstructor ∈ publicConstructors ∧
    boundsMode copyConstructor = none ∧
    fontMode copyConstructor = none := by
  refine ⟨by decide, by decide, by decide, by decide⟩

/-- C8, amended: `GLU::Text` declares exactly four constructors, all public; each of
them offers one bounds mode and one font mode, and each of the four combinations of
(auto-sized or explicit bounds) with (named or built-in bold font) is offered by exactly
one of them. The only other public constructor is the implicit copy constructor. -/
theorem declared_constructors_cover_cross_product :
    constructors.length = 4 ∧
    (∀ sig ∈ constructors, (boundsMode sig).isSome = true ∧ (fontMode sig).isSome = true) ∧
    (∀ (b : BoundsMode) (f : FontMode), offeredBy b f = 1) ∧
    publicConstructors = constructors ++ [copyConstructor] := by
  refine ⟨rfl, ?_, ?_, by decide⟩
  · intro sig hsig
    simp only [constructors, List.mem_cons, List.mem_singleton, List.not_mem_nil,
      or_false] at hsig
    rcases hsig with h | h | h | h <;> subst h <;> decide
  · intro b f
    cases b <;> cases f <;> decide
